import Mathlib

/-!
Verification development for the RoboTyler serial/WebSocket gateway.

The definitions below are a shallow embedding of the TypeScript source:
* `processSerialResponse`, `parseStatusMessage` and the per-line scanners
  embed `src/src/index.ts` (class `PaintSystemController`);
* the `handle*` command functions embed the corresponding cases of
  `handleWebSocketCommand` in `src/src/index.ts`;
* `Reconnect.handleDisconnect` embeds `handleDisconnect` of the revision
  in `src/unnamed/part_000`, which carries the exponential-backoff policy.

JavaScript numbers are modelled as exact rationals (`ℚ`); `NaN` and
`undefined` are modelled explicitly by the `JNum` type, and generic
JavaScript values reaching command payloads by `JVal`.  Strings are
modelled as `List Char` (`Str`) so that every scanner is an executable
structural recursion.
-/

namespace RoboTyler

abbrev Str := List Char

/-- JavaScript numeric slot: a field may hold `undefined`, `NaN`, or a
finite number (modelled as an exact rational). -/
inductive JNum where
  | undef : JNum
  | nan : JNum
  | num : ℚ → JNum
deriving DecidableEq

/-- JavaScript subtraction by 1 as used in `status.row - 1`:
`undefined - 1` and `NaN - 1` are `NaN`. -/
def jsub1 : JNum → JNum
  | JNum.undef => JNum.nan
  | JNum.nan => JNum.nan
  | JNum.num q => JNum.num (q - 1)

/-- A general JavaScript value as it can appear in a WebSocket payload
field. Finite numbers are `vnum`, `NaN` is `vnan` (also `typeof number`). -/
inductive JVal where
  | undef : JVal
  | vnull : JVal
  | vnan : JVal
  | vnum : ℚ → JVal
  | vstr : Str → JVal
  | vbool : Bool → JVal
deriving DecidableEq

/-- JavaScript truthiness. -/
def jsTruthy : JVal → Bool
  | JVal.undef => false
  | JVal.vnull => false
  | JVal.vnan => false
  | JVal.vnum q => decide (q ≠ 0)
  | JVal.vstr s => decide (s ≠ [])
  | JVal.vbool b => b

/-- `typeof v === "number"` (true for finite numbers and `NaN`). -/
def jsTypeofNumber : JVal → Bool
  | JVal.vnan => true
  | JVal.vnum _ => true
  | _ => false

def isDigitChar (c : Char) : Bool := '0' ≤ c && c ≤ '9'

def isDigitDot (c : Char) : Bool := isDigitChar c || c = '.'

def isHexDigitChar (c : Char) : Bool :=
  isDigitChar c || ('a' ≤ c && c ≤ 'f') || ('A' ≤ c && c ≤ 'F')

/-- Whitespace recognised by JavaScript `trim`/number conversion
(restricted to the ASCII forms that can occur on the serial link). -/
def isJsWs (c : Char) : Bool :=
  c = ' ' || c = '\t' || c = '\n' || c = '\r' || c = '\x0b' || c = '\x0c'

def digitVal (c : Char) : ℕ := c.toNat - '0'.toNat

def hexDigitVal (c : Char) : ℕ :=
  if isDigitChar c then digitVal c
  else if 'a' ≤ c && c ≤ 'f' then c.toNat - 'a'.toNat + 10
  else c.toNat - 'A'.toNat + 10

def digitsToNat (l : Str) : ℕ := l.foldl (fun a c => a * 10 + digitVal c) 0

def hexToNat (l : Str) : ℕ := l.foldl (fun a c => a * 16 + hexDigitVal c) 0

def digitChar (n : ℕ) : Char := Char.ofNat ('0'.toNat + n)

def natToStrGo : ℕ → ℕ → Str
  | 0, _ => []
  | fuel + 1, n => if n < 10 then [digitChar n] else natToStrGo fuel (n / 10) ++ [digitChar (n % 10)]

/-- Decimal numeral of a natural number. -/
def natToStr (n : ℕ) : Str := natToStrGo (n + 1) n

/-- Decimal numeral of an integer. -/
def intToStr (i : ℤ) : Str := if i < 0 then '-' :: natToStr i.natAbs else natToStr i.natAbs

/-- `startsWith` on character lists. -/
def startsWithStr : Str → Str → Bool
  | [], _ => true
  | _ :: _, [] => false
  | p :: ps, c :: cs => p = c && startsWithStr ps cs

/-- `String.prototype.includes` (substring search). -/
def containsSubstr (pat : Str) : Str → Bool
  | [] => decide (pat = [])
  | c :: rest => startsWithStr pat (c :: rest) || containsSubstr pat rest

/-- `String.prototype.split` with a one-character separator. -/
def splitOnChar (sep : Char) : Str → List Str
  | [] => [[]]
  | c :: rest =>
    match splitOnChar sep rest with
    | [] => [[]]
    | s :: ss => if c = sep then [] :: s :: ss else (c :: s) :: ss

/-- `String.prototype.trim`. -/
def trimStr (l : Str) : Str :=
  ((l.dropWhile isJsWs).reverse.dropWhile isJsWs).reverse

/-- Leading sign, returning whether it was `-` and the remainder. -/
def readSign : Str → Bool × Str
  | '-' :: r => (true, r)
  | '+' :: r => (false, r)
  | l => (false, l)

/-- JavaScript `parseInt(s)` with radix unspecified (decimal, or hex
after a `0x`/`0X` prefix); yields `NaN` when no digits are found. -/
def parseIntJS (s : Str) : JNum :=
  let t := s.dropWhile isJsWs
  let p := readSign t
  if startsWithStr ['0', 'x'] p.2 || startsWithStr ['0', 'X'] p.2 then
    let ds := (p.2.drop 2).takeWhile isHexDigitChar
    if ds = [] then JNum.nan
    else JNum.num (if p.1 then -(hexToNat ds : ℚ) else (hexToNat ds : ℚ))
  else
    let ds := p.2.takeWhile isDigitChar
    if ds = [] then JNum.nan
    else JNum.num (if p.1 then -(digitsToNat ds : ℚ) else (digitsToNat ds : ℚ))

/-- Mantissa part of a JavaScript float literal: `digits[.digits]` or
`.digits`; returns its value and the rest of the input. -/
def readMantissa (t : Str) : Option (ℚ × Str) :=
  let intD := t.takeWhile isDigitChar
  let r1 := t.dropWhile isDigitChar
  match r1 with
  | '.' :: r2 =>
    let frac := r2.takeWhile isDigitChar
    let r3 := r2.dropWhile isDigitChar
    if intD = [] && frac = [] then none
    else some ((digitsToNat intD : ℚ) + (digitsToNat frac : ℚ) / (10 : ℚ) ^ frac.length, r3)
  | _ => if intD = [] then none else some ((digitsToNat intD : ℚ), r1)

/-- JavaScript `parseFloat(s)`: longest valid numeric prefix after
leading whitespace; `NaN` when there is none.  (`Infinity` is not
representable in `ℚ` and is mapped to `NaN`; no telegram produces it.) -/
def parseFloatJS (s : Str) : JNum :=
  let t := s.dropWhile isJsWs
  let p := readSign t
  match readMantissa p.2 with
  | none => JNum.nan
  | some (v, r3) =>
    let e : ℤ :=
      match r3 with
      | c :: r4 =>
        if c = 'e' || c = 'E' then
          let q := readSign r4
          let ed := q.2.takeWhile isDigitChar
          if ed = [] then 0
          else if q.1 then -(digitsToNat ed : ℤ) else (digitsToNat ed : ℤ)
        else 0
      | [] => 0
    let mag := v * (10 : ℚ) ^ e
    JNum.num (if p.1 then -mag else mag)

/-- JavaScript `Number(s)` on a string: trimmed, empty means `0`, and the
whole remainder must be a numeric literal (decimal or `0x` hex);
otherwise `NaN`.  (`Infinity` maps to `NaN`, as in `parseFloatJS`.) -/
def strToNumber (s : Str) : JNum :=
  let t := trimStr s
  if t = [] then JNum.num 0
  else if startsWithStr ['0', 'x'] t || startsWithStr ['0', 'X'] t then
    let h := t.drop 2
    if h ≠ [] && h.all isHexDigitChar then JNum.num (hexToNat h : ℚ) else JNum.nan
  else
    let p := readSign t
    match readMantissa p.2 with
    | none => JNum.nan
    | some (v, r3) =>
      match r3 with
      | [] => JNum.num (if p.1 then -v else v)
      | c :: r4 =>
        if c = 'e' || c = 'E' then
          let q := readSign r4
          let ed := q.2.takeWhile isDigitChar
          if ed = [] || q.2.drop ed.length ≠ [] then JNum.nan
          else
            let e : ℤ := if q.1 then -(digitsToNat ed : ℤ) else (digitsToNat ed : ℤ)
            JNum.num ((if p.1 then -v else v) * (10 : ℚ) ^ e)
        else JNum.nan

/-- JavaScript `Number(v)` conversion of a general value. -/
def toNumberJS : JVal → JNum
  | JVal.undef => JNum.nan
  | JVal.vnull => JNum.num 0
  | JVal.vnan => JNum.nan
  | JVal.vnum q => JNum.num q
  | JVal.vstr s => strToNumber s
  | JVal.vbool b => JNum.num (if b then 1 else 0)

/-- JavaScript `Math.round`: round half towards positive infinity. -/
def jsRound (q : ℚ) : ℤ := ⌊q + 1 / 2⌋

/-- JavaScript `Number.prototype.toFixed(2)` on an exact rational:
two fractional digits, ties in magnitude rounded up. -/
def toFixed2 (q : ℚ) : Str :=
  let n : ℕ := (⌊|q| * 100 + 1 / 2⌋).toNat
  (if q < 0 then ['-'] else []) ++ natToStr (n / 100) ++
    '.' :: [digitChar (n % 100 / 10), digitChar (n % 100 % 10)]

def fracDigitsGo : ℕ → ℚ → Str
  | 0, _ => []
  | fuel + 1, r =>
    if r = 0 then []
    else
      let r10 := r * 10
      let d := (⌊r10⌋).toNat
      digitChar d :: fracDigitsGo fuel (r10 - (d : ℚ))

/-- Decimal rendering of a rational (exact for terminating decimals,
which covers every IEEE double; used for template interpolation of
numbers, e.g. `PAINT_PIECE ${row} ${col}`). -/
def qToStr (q : ℚ) : Str :=
  if q.den = 1 then intToStr q.num
  else
    (if q < 0 then ['-'] else []) ++ natToStr (⌊|q|⌋).toNat ++
      '.' :: fracDigitsGo 1100 (|q| - ((⌊|q|⌋).toNat : ℚ))

/-- JavaScript `String(v)` / template interpolation. -/
def jsToString : JVal → Str
  | JVal.undef => "undefined".data
  | JVal.vnull => "null".data
  | JVal.vnan => "NaN".data
  | JVal.vnum q => qToStr q
  | JVal.vstr s => s
  | JVal.vbool b => if b then "true".data else "false".data

/-! ## System state (interface `SystemState` of `src/src/index.ts`) -/

/-- `patternProgress` (interface `PatternStatus`). Numeric fields use
`JNum` because merges can store `undefined` or `NaN` into them. -/
structure PatternProgress where
  command : JNum
  total_commands : JNum
  total_rows : JNum
  row : JNum
  pattern : Option Str
  single_side : Option Bool
  details : Option Str
  completed_rows : List JNum
  duration : JNum
  axis : Option Str
deriving DecidableEq

structure LimitPair where
  min : Bool
  max : Bool
deriving DecidableEq

structure LimitSwitches where
  x : LimitPair
  y : LimitPair
deriving DecidableEq

structure SystemInfo where
  temperature : JNum
  uptime : Str
  lastMaintenance : Str
deriving DecidableEq

/-- `SystemState`. `status` is a string because the TypeScript code can
cast arbitrary strings into the enum slot (`state as SystemState["status"]`). -/
structure SystemState where
  status : Str
  posX : JNum
  posY : JNum
  systemInfo : SystemInfo
  patternProgress : PatternProgress
  lastSerialMessage : Str
  pressurePotActive : Bool
  limitSwitches : LimitSwitches
  servoAngle : JNum
deriving DecidableEq

/-- Messages broadcast to subscribers while processing one serial line. -/
inductive Severity where
  | low : Severity
  | high : Severity
deriving DecidableEq

inductive OutMsg where
  | stateUpdate : SystemState → OutMsg
  | positionUpdate : JNum → JNum → OutMsg
  | warning : Str → Str → Severity → OutMsg
  | servoUpdate : JNum → OutMsg
deriving DecidableEq

/-- Initial `patternProgress` of the controller object. -/
def initPP : PatternProgress :=
  { command := JNum.num 0, total_commands := JNum.num 0, total_rows := JNum.num 9
    row := JNum.num 0, pattern := some "".data, single_side := some false
    details := none, completed_rows := [], duration := JNum.num 0, axis := none }

/-- Initial `SystemState` of the controller object. (`lastMaintenance`
is a runtime date string in the source; its value is immaterial here.) -/
def initialState : SystemState :=
  { status := "IDLE".data, posX := JNum.num 0, posY := JNum.num 0
    systemInfo := { temperature := JNum.num 24, uptime := "0d 0h 0m".data, lastMaintenance := [] }
    patternProgress := initPP, lastSerialMessage := []
    pressurePotActive := false
    limitSwitches := { x := { min := false, max := false }, y := { min := false, max := false } }
    servoAngle := JNum.num 0 }

/-! ## Telegram parser (`parseStatusMessage` and the line scanners) -/

/-- Result of `parseStatusMessage`: a `Partial<PatternStatus>`.
`none` means the key was never assigned. For string-valued keys a key
assigned `undefined` (missing `=`) is also `none`, which coincides with
every downstream use. -/
structure ParsedStatus where
  command : Option JNum := none
  total_commands : Option JNum := none
  row : Option JNum := none
  pattern : Option Str := none
  single_side : Option Bool := none
  details : Option Str := none
  duration : Option JNum := none
  axis : Option Str := none
deriving DecidableEq

/-- `parseInt(value)` where `value` may be `undefined`
(`parseInt(undefined)` parses the string `"undefined"`, giving `NaN`). -/
def parseIntOpt : Option Str → JNum
  | none => JNum.nan
  | some v => parseIntJS v

/-- One `key=value` segment applied to the accumulating status. -/
def applySegment (st : ParsedStatus) (seg : Str) : ParsedStatus :=
  let kv := splitOnChar '=' seg
  let key := kv.headD []
  let value : Option Str := kv[1]?
  if key = "command".data then { st with command := some (parseIntOpt value) }
  else if key = "total_commands".data then { st with total_commands := some (parseIntOpt value) }
  else if key = "row".data then { st with row := some (parseIntOpt value) }
  else if key = "pattern".data then { st with pattern := value }
  else if key = "single_side".data then { st with single_side := some (decide (value = some "true".data)) }
  else if key = "details".data then { st with details := value }
  else if key = "duration_ms".data then { st with duration := some (parseIntOpt value) }
  else if key = "movement_axis".data then
    { st with axis :=
        match value with
        | some v => if v ≠ [] then some (if v = "X".data then "X".data else "Y".data) else none
        | none => none }
  else st

/-- `parseStatusMessage`: `EVENT_TYPE|key1=value1|...` (at least one
pipe segment), returning the raw event-type string and the parsed fields. -/
def parseStatusMessage (line : Str) : Option (Str × ParsedStatus) :=
  let parts := splitOnChar '|' line
  if parts.length < 2 then none
  else some (parts.headD [], (parts.drop 1).foldl applySegment {})

/-- `line.split(":")[1].trim()` (guarded uses always have index 1). -/
def colonArg1 (line : Str) : Str := trimStr ((splitOnChar ':' line)[1]?.getD [])

/-- Attempt of the regex `Position - X: ([\d.]+) inches, Y: ([\d.]+) inches`
at the start of the input (the char class excludes the following literal
space, so the greedy run needs no backtracking). -/
def matchPosAt (l : Str) : Option (Str × Str) :=
  if startsWithStr "Position - X: ".data l then
    let r1 := l.drop 14
    let xs := r1.takeWhile isDigitDot
    let r2 := r1.dropWhile isDigitDot
    if xs ≠ [] && startsWithStr " inches, Y: ".data r2 then
      let r3 := r2.drop 12
      let ys := r3.takeWhile isDigitDot
      let r4 := r3.dropWhile isDigitDot
      if ys ≠ [] && startsWithStr " inches".data r4 then some (xs, ys) else none
    else none
  else none

/-- Unanchored search with the position regex (first match wins). -/
def posScan : Str → Option (Str × Str)
  | [] => none
  | c :: rest =>
    match matchPosAt (c :: rest) with
    | some r => some r
    | none => posScan rest

/-- Attempt of the regex `LIMIT:([XY])_(MIN|MAX)` at the start. -/
def matchLimitAt (l : Str) : Option (Char × Str) :=
  if startsWithStr "LIMIT:".data l then
    match l.drop 6 with
    | a :: '_' :: rest =>
      if a = 'X' || a = 'Y' then
        if startsWithStr "MIN".data rest then some (a, "MIN".data)
        else if startsWithStr "MAX".data rest then some (a, "MAX".data)
        else none
      else none
    | _ => none
  else none

def limitScan : Str → Option (Char × Str)
  | [] => none
  | c :: rest =>
    match matchLimitAt (c :: rest) with
    | some r => some r
    | none => limitScan rest

/-- Attempt of the regex `Servo - Angle: (\d+)` at the start. -/
def matchServoAt (l : Str) : Option ℕ :=
  if startsWithStr "Servo - Angle: ".data l then
    let ds := (l.drop 15).takeWhile isDigitChar
    if ds ≠ [] then some (digitsToNat ds) else none
  else none

def servoScan : Str → Option ℕ
  | [] => none
  | c :: rest =>
    match matchServoAt (c :: rest) with
    | some r => some r
    | none => servoScan rest

/-! ## State store (`processSerialResponse` of `src/src/index.ts`) -/

/-- The pattern-progress object installed by `State changed:HOMED`. -/
def resetPP : PatternProgress :=
  { command := JNum.num 0, total_commands := JNum.num 0, total_rows := JNum.num 9
    row := JNum.num 0, pattern := some "".data, single_side := some false
    details := none, completed_rows := [], duration := JNum.num 0, axis := none }

/-- The explicitly-listed state names of the `switch` (everything except
`HOMED`, which has its own branch, and the `default`). -/
def recognizedStateNames : List Str :=
  ["IDLE".data, "HOMING_X".data, "HOMING_Y".data, "HOMING_ROTATION".data,
   "STOPPED".data, "PAUSED".data, "EXECUTING_PATTERN".data, "ERROR".data,
   "CYCLE_COMPLETE".data, "CLEANING".data, "PAINTING_SIDE".data,
   "MANUAL_ROTATING".data, "PRIMING".data]

/-- Position-report branch (new format): update position, broadcast the
state snapshot (via `updateStatus`) and a `POSITION_UPDATE`. -/
def handlePosition (s : SystemState) (xs ys : Str) : SystemState × List OutMsg :=
  let x := parseFloatJS xs
  let y := parseFloatJS ys
  let s1 := { s with posX := x, posY := y }
  (s1, [OutMsg.stateUpdate s1, OutMsg.positionUpdate x y])

/-- `Pressure pot` branch (does not return; later branches still run). -/
def pressureStep (s : SystemState) (line : Str) : SystemState × List OutMsg :=
  if startsWithStr "Pressure pot".data line then
    let s1 := { s with pressurePotActive := !(containsSubstr "deactivated".data line) }
    (s1, [OutMsg.stateUpdate s1])
  else (s, [])

/-- `State changed:` branch. -/
def stateChangedStep (s : SystemState) (ms : List OutMsg) (line : Str) :
    SystemState × List OutMsg :=
  let st := colonArg1 line
  let s1 :=
    if st = "HOMED".data then { s with status := "HOMED".data, patternProgress := resetPP }
    else if st ∈ recognizedStateNames then { s with status := st }
    else { s with status := "UNKNOWN".data }
  (s1, ms ++ [OutMsg.stateUpdate s1])

/-- `status.details || "Unknown error occurred"` (`||` takes the default
for `undefined` and for the empty string). -/
def detailsOrDefault (o : Option Str) : Str :=
  match o with
  | some d => if d = [] then "Unknown error occurred".data else d
  | none => "Unknown error occurred".data

/-- Keyed-event branch: `switch (eventType)` over the parsed status. -/
def keyedStep (s : SystemState) (et : Str) (ps : ParsedStatus) :
    SystemState × List OutMsg :=
  let jn : Option JNum → JNum := fun o => o.getD JNum.undef
  if et = "PATTERN_START".data then
    let s1 := { s with
                status := "EXECUTING_PATTERN".data
                patternProgress := { s.patternProgress with
                                     command := jn ps.command
                                     total_commands := jn ps.total_commands
                                     row := jsub1 (jn ps.row)
                                     single_side := ps.single_side
                                     pattern := ps.pattern } }
    (s1, [OutMsg.stateUpdate s1])
  else if et = "PATTERN_COMPLETE".data then
    let s1 := { s with
                status := if ps.single_side = some true then "IDLE".data else "HOMED".data
                patternProgress := { s.patternProgress with
                                     command := JNum.num 0
                                     completed_rows := [] } }
    (s1, [OutMsg.stateUpdate s1])
  else if et = "SPRAY_COMPLETE".data then
    match ps.row with
    | some r =>
      let r1 := jsub1 r
      let cr := s.patternProgress.completed_rows
      let cr1 := if r1 ∈ cr then cr else cr ++ [r1]
      let s1 := { s with patternProgress := { s.patternProgress with completed_rows := cr1 } }
      (s1, [OutMsg.stateUpdate s1])
    | none => (s, [])
  else if et = "SPRAY_START".data then
    let s1 := { s with patternProgress := { s.patternProgress with row := jsub1 (jn ps.row) } }
    (s1, [OutMsg.stateUpdate s1])
  else if et = "MOVE_X".data || et = "MOVE_Y".data then
    let s1 := { s with
                patternProgress := { s.patternProgress with
                                     command := jn ps.command
                                     total_commands := jn ps.total_commands
                                     row := jsub1 (jn ps.row)
                                     single_side := ps.single_side
                                     pattern := ps.pattern
                                     axis := ps.axis
                                     duration := jn ps.duration } }
    (s1, [OutMsg.stateUpdate s1])
  else if et = "ERROR".data then
    let s1 := { s with status := "ERROR".data }
    (s1, [OutMsg.stateUpdate s1,
          OutMsg.warning "Error".data (detailsOrDefault ps.details) Severity.high])
  else (s, [])

/-- `LIMIT_CLEAR:` branch: reset both flags of the named axis. -/
def limitClearStep (s : SystemState) (ms : List OutMsg) (line : Str) :
    SystemState × List OutMsg :=
  let ax := colonArg1 line
  let ls := s.limitSwitches
  let ls1 :=
    if ax = "X".data then { ls with x := { min := false, max := false } }
    else if ax = "Y".data then { ls with y := { min := false, max := false } }
    else ls
  let s1 := { s with limitSwitches := ls1 }
  (s1, ms ++ [OutMsg.stateUpdate s1])

/-- `LIMIT:<axis>_<dir>` branch: set exactly the triggered flag. -/
def limitTrigStep (s : SystemState) (ms : List OutMsg) (ax : Char) (dir : Str) :
    SystemState × List OutMsg :=
  let setDir : LimitPair → LimitPair := fun p =>
    if dir = "MIN".data then { p with min := true } else { p with max := true }
  let ls := s.limitSwitches
  let ls1 := if ax = 'X' then { ls with x := setDir ls.x } else { ls with y := setDir ls.y }
  let s1 := { s with limitSwitches := ls1 }
  (s1, ms ++ [OutMsg.stateUpdate s1])

/-- Trailing `if/else if` chain (`Position:`, `Temperature:`, `WARNING:`)
followed by the independent limit-clear, limit-trigger and servo checks. -/
def tailSteps (s : SystemState) (ms : List OutMsg) (line : Str) :
    SystemState × List OutMsg :=
  let chain : SystemState × List OutMsg :=
    if startsWithStr "Position:".data line then
      let pieces := splitOnChar ',' (colonArg1 line)
      let x := match pieces[0]? with | some p => strToNumber p | none => JNum.undef
      let y := match pieces[1]? with | some p => strToNumber p | none => JNum.undef
      let s1 := { s with posX := x, posY := y }
      (s1, ms ++ [OutMsg.stateUpdate s1])
    else if startsWithStr "Temperature:".data line then
      let t := parseFloatJS (colonArg1 line)
      let s1 := { s with systemInfo := { s.systemInfo with temperature := t } }
      (s1, ms ++ [OutMsg.stateUpdate s1])
    else if startsWithStr "WARNING:".data line then
      (s, ms ++ [OutMsg.warning "WARNING".data ((trimStr line).drop 9) Severity.low])
    else (s, ms)
  if startsWithStr "LIMIT_CLEAR:".data line then limitClearStep chain.1 chain.2 line
  else
    match limitScan line with
    | some ad => limitTrigStep chain.1 chain.2 ad.1 ad.2
    | none =>
      match servoScan line with
      | some n =>
        let s1 := { chain.1 with servoAngle := JNum.num (n : ℚ) }
        (s1, chain.2 ++ [OutMsg.stateUpdate s1, OutMsg.servoUpdate (JNum.num (n : ℚ))])
      | none => chain

/-- `processSerialResponse(line)`: the full per-line processing step,
returning the new state and the messages broadcast to all subscribers.
The raw line is stored into `lastSerialMessage` before any matching. -/
def processSerialResponse (s0 : SystemState) (line : Str) :
    SystemState × List OutMsg :=
  let s := { s0 with lastSerialMessage := line }
  match posScan line with
  | some xy => handlePosition s xy.1 xy.2
  | none =>
    let pr := pressureStep s line
    if startsWithStr "State changed:".data line then stateChangedStep pr.1 pr.2 line
    else
      match parseStatusMessage line with
      | some ep =>
        let ks := keyedStep pr.1 ep.1 ep.2
        (ks.1, pr.2 ++ ks.2)
      | none => tailSteps pr.1 pr.2 line

/-- New state after a list of inbound lines. -/
def processLines (s : SystemState) (lines : List Str) : SystemState :=
  lines.foldl (fun st l => (processSerialResponse st l).1) s

/-- A line is recognized when some branch of `processSerialResponse`
matches it (the code's own dispatch conditions). -/
def recognizedLine (line : Str) : Bool :=
  (posScan line).isSome || startsWithStr "Pressure pot".data line ||
  startsWithStr "State changed:".data line || (parseStatusMessage line).isSome ||
  startsWithStr "Position:".data line || startsWithStr "Temperature:".data line ||
  startsWithStr "WARNING:".data line || startsWithStr "LIMIT_CLEAR:".data line ||
  (limitScan line).isSome || (servoScan line).isSome

/-! ## Command gateway (`handleWebSocketCommand` cases of `src/src/index.ts`) -/

/-- Outcome of one validated command: either exactly one line written to
the serial link, or an `ERROR` message sent back to the requesting
subscriber only (no write, no state change). -/
inductive CmdOutcome where
  | serial : Str → CmdOutcome
  | clientError : Str → CmdOutcome
deriving DecidableEq

/-- Payload of `ROTATE_SPINNER`. -/
structure RotatePayload where
  direction : JVal
  degrees : JVal
deriving DecidableEq

/-- `case "ROTATE_SPINNER"`: both fields must be truthy; direction
`"right"` encodes unsigned degrees, anything else a `-` sign. -/
def handleRotateSpinner (payload : Option RotatePayload) : CmdOutcome :=
  let dir := match payload with | some p => p.direction | none => JVal.undef
  let deg := match payload with | some p => p.degrees | none => JVal.undef
  if !(jsTruthy dir) || !(jsTruthy deg) then
    CmdOutcome.clientError "Missing direction or degrees for rotation".data
  else
    CmdOutcome.serial ("ROTATE ".data ++
      (if dir = JVal.vstr "right".data then [] else ['-']) ++ jsToString deg)

/-- Payload of `PAINT_PIECE`. -/
structure PaintPiecePayload where
  row : JVal
  col : JVal
deriving DecidableEq

/-- JavaScript `a <= b` / `a < b` against a numeric literal, for values
already known to be of number type (`NaN` compares false). -/
def jleNum (v : JVal) (b : ℚ) : Bool :=
  match v with | JVal.vnum q => decide (q ≤ b) | _ => false

def jltNum (v : JVal) (b : ℚ) : Bool :=
  match v with | JVal.vnum q => decide (q < b) | _ => false

def jgeNum (v : JVal) (b : ℚ) : Bool :=
  match v with | JVal.vnum q => decide (b ≤ q) | _ => false

def jgtNum (v : JVal) (b : ℚ) : Bool :=
  match v with | JVal.vnum q => decide (b < q) | _ => false

/-- `case "PAINT_PIECE"`: requires `typeof row/col === "number"`, then
`0 ≤ row < 6` and `0 ≤ col < 9`; encodes `PAINT_PIECE <row> <col>`. -/
def handlePaintPiece (payload : Option PaintPiecePayload) : CmdOutcome :=
  match payload with
  | some p =>
    if jsTypeofNumber p.row && jsTypeofNumber p.col then
      if jgeNum p.row 0 && jltNum p.row 6 && jgeNum p.col 0 && jltNum p.col 9 then
        CmdOutcome.serial ("PAINT_PIECE ".data ++ jsToString p.row ++ " ".data ++ jsToString p.col)
      else
        CmdOutcome.clientError "Invalid grid position. Row must be 0-5 and column must be 0-8.".data
    else CmdOutcome.clientError "Missing or invalid row/column in PAINT_PIECE command".data
  | none => CmdOutcome.clientError "Missing or invalid row/column in PAINT_PIECE command".data

/-- Payload of `MOVE_TO_POSITION`. -/
structure MovePayload where
  x : JVal
  y : JVal
  speed : JVal
  acceleration : JVal
deriving DecidableEq

/-- `v.toFixed(2)`: defined on numbers only; on any other value the
source throws a `TypeError`, surfaced via the surrounding `catch` as a
client error (modelled by `none`). -/
def jsToFixed2 : JVal → Option Str
  | JVal.vnum q => some (toFixed2 q)
  | JVal.vnan => some "NaN".data
  | _ => none

/-- `v || 1.0` (JavaScript `||`: any falsy value is replaced). -/
def orDefaultOne (v : JVal) : JVal := if jsTruthy v then v else JVal.vnum 1

/-- `case "MOVE_TO_POSITION"`: `!payload?.x || payload?.y == undefined`
rejects; speed/acceleration default through `|| 1.0` and must satisfy
`0 < v ≤ 1`; encodes `GOTO <x.toFixed(2)> <y.toFixed(2)>`. -/
def handleMoveToPosition (payload : Option MovePayload) : CmdOutcome :=
  let px := match payload with | some p => p.x | none => JVal.undef
  let py := match payload with | some p => p.y | none => JVal.undef
  if !(jsTruthy px) || py = JVal.undef || py = JVal.vnull then
    CmdOutcome.clientError "Missing x or y coordinates for position move".data
  else
    let pl := payload.getD { x := JVal.undef, y := JVal.undef, speed := JVal.undef, acceleration := JVal.undef }
    let moveSpeed := orDefaultOne pl.speed
    let moveAcceleration := orDefaultOne pl.acceleration
    if jleNum moveSpeed 0 || jgtNum moveSpeed 1 ||
        jleNum moveAcceleration 0 || jgtNum moveAcceleration 1 then
      CmdOutcome.clientError "Speed and acceleration must be between 0 and 1".data
    else
      match jsToFixed2 px, jsToFixed2 py with
      | some sx, some sy => CmdOutcome.serial ("GOTO ".data ++ sx ++ " ".data ++ sy)
      | _, _ => CmdOutcome.clientError "payload.x.toFixed is not a function".data

/-- Payload of `SET_SERVO_ANGLE`. -/
structure ServoPayload where
  angle : JVal
deriving DecidableEq

/-- `case "SET_SERVO_ANGLE"`: reject a missing angle, convert with
`Number`, require `0 ≤ angle ≤ 180` (`NaN` rejected), and encode
`SERVO <Math.round(angle)>`. -/
def handleSetServoAngle (payload : Option ServoPayload) : CmdOutcome :=
  let a := match payload with | some p => p.angle | none => JVal.undef
  if a = JVal.undef then CmdOutcome.clientError "Missing angle for servo".data
  else
    match toNumberJS a with
    | JNum.num q =>
      if q < 0 ∨ 180 < q then
        CmdOutcome.clientError "Servo angle must be between 0 and 180 degrees".data
      else CmdOutcome.serial ("SERVO ".data ++ intToStr (jsRound q))
    | _ => CmdOutcome.clientError "Servo angle must be between 0 and 180 degrees".data

/-! ## Reconnect supervisor (`handleDisconnect` of `src/unnamed/part_000`) -/

namespace Reconnect

/-- `MAX_RECONNECT_ATTEMPTS` of the controller. -/
def MAX_RECONNECT_ATTEMPTS : ℕ := 5

/-- What one invocation of `handleDisconnect` does: either schedule a
retry after `delayMs` milliseconds with the incremented attempt counter,
or give up (a high-severity notification, no timer scheduled). -/
inductive Action where
  | retry : ℕ → ℕ → Action
  | failed : Action
deriving DecidableEq

/-- `handleDisconnect`, as a function of the consecutive-failure counter
`reconnectAttempts`: exponential backoff `min(1000 · 2^attempts, 30000)`
while below the maximum, terminal failure afterwards. -/
def handleDisconnect (attempts : ℕ) : Action :=
  if attempts < MAX_RECONNECT_ATTEMPTS then
    Action.retry (min (1000 * 2 ^ attempts) 30000) (attempts + 1)
  else Action.failed

/-- `initializeSerial` on success: `this.reconnectAttempts = 0`. -/
def resetAttemptsOnOpen (_ : ℕ) : ℕ := 0

end Reconnect

/-! ## Definitions supporting the claim statements -/

/-- The status enum of the specification: the members of `SystemStatus`
plus `PRIMING`, which the `switch` in `processSerialResponse` also
stores (`state as SystemState["status"]`). -/
def statusEnum : List Str := "HOMED".data :: "UNKNOWN".data :: recognizedStateNames

/-- An optional numeric payload field: absent fields are `undefined`. -/
def jvalOfOpt : Option ℚ → JVal
  | none => JVal.undef
  | some q => JVal.vnum q

/-- Effective speed/acceleration reaching the range check of
`MOVE_TO_POSITION`: `v || 1.0` replaces an absent or zero value by 1. -/
def effParam : Option ℚ → ℚ
  | none => 1
  | some v => if v = 0 then 1 else v

/-- Claim C7 as stated: a `MOVE_TO_POSITION` payload with numeric `x`
and `y` (speed and acceleration defaulting to 1.0 when absent) is
accepted and encoded as `GOTO <x:2dp> <y:2dp>` exactly when speed and
acceleration both lie in `(0, 1]`. -/
def claimC7Statement : Prop :=
  ∀ (x y : ℚ) (sp ac : Option ℚ),
    handleMoveToPosition (some { x := JVal.vnum x, y := JVal.vnum y
                                 speed := jvalOfOpt sp, acceleration := jvalOfOpt ac }) =
      CmdOutcome.serial ("GOTO ".data ++ toFixed2 x ++ " ".data ++ toFixed2 y) ↔
    0 < sp.getD 1 ∧ sp.getD 1 ≤ 1 ∧ 0 < ac.getD 1 ∧ ac.getD 1 ≤ 1

/-- A line of the form `State changed:<name>` whose tail also matches
the position-report pattern, which `processSerialResponse` checks first. -/
def advC4Line : Str := "State changed: Position - X: 1 inches, Y: 2 inches".data

end RoboTyler

namespace RoboTyler

/-! ## General lemmas about the embedding -/

theorem isSome_false_eq_none {α : Type} {o : Option α} (h : o.isSome = false) : o = none := by
  cases o with
  | none => rfl
  | some v => simp at h

theorem pressureStep_patternProgress (s : SystemState) (line : Str) :
    (pressureStep s line).1.patternProgress = s.patternProgress := by
  unfold pressureStep
  split <;> rfl

theorem pressureStep_status (s : SystemState) (line : Str) :
    (pressureStep s line).1.status = s.status := by
  unfold pressureStep
  split <;> rfl

theorem pressureStep_lastSerialMessage (s : SystemState) (line : Str) :
    (pressureStep s line).1.lastSerialMessage = s.lastSerialMessage := by
  unfold pressureStep
  split <;> rfl

theorem tailSteps_patternProgress (s : SystemState) (ms : List OutMsg) (line : Str) :
    (tailSteps s ms line).1.patternProgress = s.patternProgress := by
  unfold tailSteps limitClearStep limitTrigStep
  repeat' split <;> try rfl

theorem tailSteps_status (s : SystemState) (ms : List OutMsg) (line : Str) :
    (tailSteps s ms line).1.status = s.status := by
  unfold tailSteps limitClearStep limitTrigStep
  repeat' split <;> try rfl

theorem handlePaintPiece_num (r c : ℚ) :
    handlePaintPiece (some { row := JVal.vnum r, col := JVal.vnum c }) =
      if 0 ≤ r ∧ r < 6 ∧ 0 ≤ c ∧ c < 9 then
        CmdOutcome.serial ("PAINT_PIECE ".data ++ qToStr r ++ " ".data ++ qToStr c)
      else
        CmdOutcome.clientError "Invalid grid position. Row must be 0-5 and column must be 0-8.".data := by
  by_cases h1 : 0 ≤ r <;> by_cases h2 : r < 6 <;> by_cases h3 : 0 ≤ c <;> by_cases h4 : c < 9 <;>
    simp [handlePaintPiece, jsTypeofNumber, jgeNum, jltNum, jsToString, h1, h2, h3, h4]

/-! ## Claim theorems -/

/-- Claim C6: with base delay 1s, max delay 30s and max attempt count 5,
the delay before the k-th reconnection attempt (k = 1..5, counting
consecutive failures since the last successful open) is
`min(1000 · 2^(k-1), 30000)` ms, i.e. 1, 2, 4, 8, 16 seconds; a 6th
consecutive failure is terminal (notification, no retry scheduled); a
successful open resets the attempt counter to zero. -/
theorem C6_reconnect_backoff :
    Reconnect.handleDisconnect 0 = Reconnect.Action.retry 1000 1 ∧
    Reconnect.handleDisconnect 1 = Reconnect.Action.retry 2000 2 ∧
    Reconnect.handleDisconnect 2 = Reconnect.Action.retry 4000 3 ∧
    Reconnect.handleDisconnect 3 = Reconnect.Action.retry 8000 4 ∧
    Reconnect.handleDisconnect 4 = Reconnect.Action.retry 16000 5 ∧
    (∀ k : ℕ, 1 ≤ k → k ≤ 5 →
      Reconnect.handleDisconnect (k - 1) =
        Reconnect.Action.retry (min (1000 * 2 ^ (k - 1)) 30000) k) ∧
    Reconnect.handleDisconnect 5 = Reconnect.Action.failed ∧
    (∀ n : ℕ, Reconnect.resetAttemptsOnOpen n = 0) := by
  refine ⟨by decide, by decide, by decide, by decide, by decide, ?_, by decide, fun n => rfl⟩
  intro k h1 h5
  interval_cases k <;> decide

/-- Witness for C6 at the concrete attempt k = 5. -/
theorem C6_reconnect_backoff_witness :
    1 ≤ 5 ∧ 5 ≤ 5 ∧
    Reconnect.handleDisconnect (5 - 1) =
      Reconnect.Action.retry (min (1000 * 2 ^ (5 - 1)) 30000) 5 :=
  ⟨by decide, by decide, C6_reconnect_backoff.2.2.2.2.2.1 5 (by decide) (by decide)⟩

/-- Claim C8: a `PAINT_PIECE` command with numeric row and col is
accepted and encoded as `PAINT_PIECE <row> <col>` exactly when row lies
in `[0, 6)` and col in `[0, 9)`; otherwise the requesting subscriber
gets a descriptive error and nothing reaches the link. In particular
`{row:6,col:0}` and `{row:0,col:9}` are rejected while `{row:5,col:8}`
encodes `PAINT_PIECE 5 8`. -/
theorem C8_paint_piece :
    (∀ r c : ℚ,
      handlePaintPiece (some { row := JVal.vnum r, col := JVal.vnum c }) =
          CmdOutcome.serial ("PAINT_PIECE ".data ++ qToStr r ++ " ".data ++ qToStr c) ↔
        0 ≤ r ∧ r < 6 ∧ 0 ≤ c ∧ c < 9) ∧
    (∀ r c : ℚ, ¬ (0 ≤ r ∧ r < 6 ∧ 0 ≤ c ∧ c < 9) →
      handlePaintPiece (some { row := JVal.vnum r, col := JVal.vnum c }) =
        CmdOutcome.clientError "Invalid grid position. Row must be 0-5 and column must be 0-8.".data) ∧
    handlePaintPiece (some { row := JVal.vnum 6, col := JVal.vnum 0 }) =
      CmdOutcome.clientError "Invalid grid position. Row must be 0-5 and column must be 0-8.".data ∧
    handlePaintPiece (some { row := JVal.vnum 0, col := JVal.vnum 9 }) =
      CmdOutcome.clientError "Invalid grid position. Row must be 0-5 and column must be 0-8.".data ∧
    handlePaintPiece (some { row := JVal.vnum 5, col := JVal.vnum 8 }) =
      CmdOutcome.serial "PAINT_PIECE 5 8".data := by
  refine ⟨?_, ?_, by decide, by decide, by decide⟩
  · intro r c
    rw [handlePaintPiece_num]
    split
    · next h => simp [h]
    · next h => simp [h]
  · intro r c h
    rw [handlePaintPiece_num, if_neg h]

/-- Witness for C8's rejection clause at `{row:6,col:0}`. -/
theorem C8_paint_piece_witness :
    ¬ ((0:ℚ) ≤ 6 ∧ (6:ℚ) < 6 ∧ (0:ℚ) ≤ 0 ∧ (0:ℚ) < 9) ∧
    handlePaintPiece (some { row := JVal.vnum 6, col := JVal.vnum 0 }) =
      CmdOutcome.clientError "Invalid grid position. Row must be 0-5 and column must be 0-8.".data :=
  ⟨by norm_num, C8_paint_piece.2.1 6 0 (by norm_num)⟩

/-- Claim C9: a `SET_SERVO_ANGLE` command is accepted exactly when its
angle parses as a number in `[0, 180]`, and then encodes
`SERVO <angle rounded to the nearest whole degree>`; 181 and -1 are
rejected, 90.4 encodes `SERVO 90`. -/
theorem C9_servo_angle :
    (∀ v : JVal,
      (∃ out, handleSetServoAngle (some { angle := v }) = CmdOutcome.serial out) ↔
        ∃ q : ℚ, toNumberJS v = JNum.num q ∧ 0 ≤ q ∧ q ≤ 180) ∧
    (∀ q : ℚ,
      handleSetServoAngle (some { angle := JVal.vnum q }) =
        if 0 ≤ q ∧ q ≤ 180 then
          CmdOutcome.serial ("SERVO ".data ++ intToStr (jsRound q))
        else CmdOutcome.clientError "Servo angle must be between 0 and 180 degrees".data) ∧
    handleSetServoAngle (some { angle := JVal.vnum 181 }) =
      CmdOutcome.clientError "Servo angle must be between 0 and 180 degrees".data ∧
    handleSetServoAngle (some { angle := JVal.vnum (-1) }) =
      CmdOutcome.clientError "Servo angle must be between 0 and 180 degrees".data ∧
    handleSetServoAngle (some { angle := JVal.vnum (904 / 10) }) =
      CmdOutcome.serial "SERVO 90".data := by
  have hstep : ∀ q : ℚ,
      handleSetServoAngle (some { angle := JVal.vnum q }) =
        if 0 ≤ q ∧ q ≤ 180 then
          CmdOutcome.serial ("SERVO ".data ++ intToStr (jsRound q))
        else CmdOutcome.clientError "Servo angle must be between 0 and 180 degrees".data := by
    intro q
    by_cases h : 0 ≤ q ∧ q ≤ 180
    · have hr : ¬ (q < 0 ∨ 180 < q) := by
        push_neg
        exact ⟨h.1, h.2⟩
      rw [if_pos h]
      simp [handleSetServoAngle, toNumberJS, hr]
    · have hr : q < 0 ∨ 180 < q := by
        rcases not_and_or.mp h with h1 | h1
        · exact Or.inl (not_le.mp h1)
        · exact Or.inr (not_le.mp h1)
      rw [if_neg h]
      simp [handleSetServoAngle, toNumberJS, hr]
  refine ⟨?_, hstep, by decide, by decide, by with_unfolding_all decide⟩
  intro v
  by_cases hv : v = JVal.undef
  · subst hv
    simp [handleSetServoAngle, toNumberJS]
  · constructor
    · rintro ⟨out, hout⟩
      rw [handleSetServoAngle, if_neg hv] at hout
      rcases hq : toNumberJS v with _ | _ | q
      · rw [hq] at hout
        simp at hout
      · rw [hq] at hout
        simp at hout
      · by_cases hr : q < 0 ∨ 180 < q
        · rw [hq] at hout
          simp [hr] at hout
        · push_neg at hr
          exact ⟨q, rfl, hr.1, hr.2⟩
    · rintro ⟨q, hq, h0, h180⟩
      have hr : ¬ (q < 0 ∨ 180 < q) := by
        push_neg
        exact ⟨h0, h180⟩
      refine ⟨"SERVO ".data ++ intToStr (jsRound q), ?_⟩
      rw [handleSetServoAngle, if_neg hv, hq]
      simp [hr]

theorem orDefaultOne_jvalOfOpt (o : Option ℚ) :
    orDefaultOne (jvalOfOpt o) = JVal.vnum (effParam o) := by
  cases o with
  | none => rfl
  | some v =>
    by_cases hv : v = 0
    · subst hv
      rfl
    · simp [orDefaultOne, jvalOfOpt, jsTruthy, effParam, hv]

theorem handleMoveToPosition_num (x y : ℚ) (sp ac : Option ℚ) :
    handleMoveToPosition (some { x := JVal.vnum x, y := JVal.vnum y
                                 speed := jvalOfOpt sp, acceleration := jvalOfOpt ac }) =
      if x = 0 then
        CmdOutcome.clientError "Missing x or y coordinates for position move".data
      else if effParam sp ≤ 0 ∨ 1 < effParam sp ∨ effParam ac ≤ 0 ∨ 1 < effParam ac then
        CmdOutcome.clientError "Speed and acceleration must be between 0 and 1".data
      else
        CmdOutcome.serial ("GOTO ".data ++ toFixed2 x ++ " ".data ++ toFixed2 y) := by
  by_cases hx : x = 0
  · subst hx
    have ht : jsTruthy (JVal.vnum 0) = false := by decide
    simp [handleMoveToPosition, ht]
  · rw [if_neg hx]
    have ht : jsTruthy (JVal.vnum x) = true := by simp [jsTruthy, hx]
    by_cases hc : effParam sp ≤ 0 ∨ 1 < effParam sp ∨ effParam ac ≤ 0 ∨ 1 < effParam ac
    · rw [if_pos hc]
      rcases hc with h | h | h | h <;>
        simp [handleMoveToPosition, ht, orDefaultOne_jvalOfOpt, jleNum, jgtNum, h]
    · rw [if_neg hc]
      push_neg at hc
      obtain ⟨h1, h2, h3, h4⟩ := hc
      simp [handleMoveToPosition, ht, orDefaultOne_jvalOfOpt, jleNum, jgtNum, jsToFixed2,
        not_le.mpr h1, not_lt.mpr h2, not_le.mpr h3, not_lt.mpr h4]

/-- Counterexample to claim C7 as stated: the payload `{x: 0, y: 1}`
(speed and acceleration absent, hence defaulting to 1.0 which lies in
`(0,1]`) should be accepted per the claim, but the code's presence check
`!payload?.x` treats the numeric `x = 0` as missing and rejects it. -/
theorem C7_counterexample : ¬ claimC7Statement := by
  intro h
  have h0 := (h 0 1 none none).2 (by simp)
  have hr : handleMoveToPosition (some { x := JVal.vnum 0, y := JVal.vnum 1
                                         speed := jvalOfOpt none, acceleration := jvalOfOpt none }) =
      CmdOutcome.clientError "Missing x or y coordinates for position move".data := by
    decide
  rw [hr] at h0
  exact absurd h0 (by simp)

/-- Claim C7 (amended): a `MOVE_TO_POSITION` payload with numeric `x`
and `y` is accepted and encodes `GOTO <x:2dp> <y:2dp>` exactly when `x`
is nonzero (the presence check `!payload?.x` rejects `x = 0`) and the
effective speed and acceleration lie in `(0,1]`, where the effective
value is 1.0 when the field is absent or 0 (JavaScript `|| 1.0` replaces
any falsy value, so a present 0 is silently replaced by the default
rather than rejected); a payload with `x` or `y` missing is rejected
with the missing-coordinates error and nothing is written to the link. -/
theorem C7_move_to_position :
    (∀ (x y : ℚ) (sp ac : Option ℚ),
      handleMoveToPosition (some { x := JVal.vnum x, y := JVal.vnum y
                                   speed := jvalOfOpt sp, acceleration := jvalOfOpt ac }) =
          CmdOutcome.serial ("GOTO ".data ++ toFixed2 x ++ " ".data ++ toFixed2 y) ↔
        x ≠ 0 ∧ 0 < effParam sp ∧ effParam sp ≤ 1 ∧ 0 < effParam ac ∧ effParam ac ≤ 1) ∧
    (∀ y sp ac : JVal,
      handleMoveToPosition (some { x := JVal.undef, y := y, speed := sp, acceleration := ac }) =
        CmdOutcome.clientError "Missing x or y coordinates for position move".data) ∧
    (∀ x sp ac : JVal,
      handleMoveToPosition (some { x := x, y := JVal.undef, speed := sp, acceleration := ac }) =
        CmdOutcome.clientError "Missing x or y coordinates for position move".data) := by
  refine ⟨?_, ?_, ?_⟩
  · intro x y sp ac
    rw [handleMoveToPosition_num]
    by_cases hx : x = 0
    · simp [hx]
    · rw [if_neg hx]
      by_cases hc : effParam sp ≤ 0 ∨ 1 < effParam sp ∨ effParam ac ≤ 0 ∨ 1 < effParam ac
      · rw [if_pos hc]
        constructor
        · intro hco
          exact absurd hco (by simp)
        · rintro ⟨-, g1, g2, g3, g4⟩
          rcases hc with h | h | h | h
          · exact absurd g1 (not_lt.mpr h)
          · exact absurd g2 (not_le.mpr h)
          · exact absurd g3 (not_lt.mpr h)
          · exact absurd g4 (not_le.mpr h)
      · rw [if_neg hc]
        push_neg at hc
        obtain ⟨h1, h2, h3, h4⟩ := hc
        constructor
        · intro _
          exact ⟨hx, h1, h2, h3, h4⟩
        · intro _
          rfl
  · intro y sp ac
    rfl
  · intro x sp ac
    simp [handleMoveToPosition]

theorem mem_statusEnum_HOMED : "HOMED".data ∈ statusEnum := by decide

theorem mem_statusEnum_UNKNOWN : "UNKNOWN".data ∈ statusEnum := by decide

theorem mem_statusEnum_EXECUTING : "EXECUTING_PATTERN".data ∈ statusEnum := by decide

theorem mem_statusEnum_IDLE : "IDLE".data ∈ statusEnum := by decide

theorem mem_statusEnum_ERROR : "ERROR".data ∈ statusEnum := by decide

theorem stateChangedStep_status_mem (s : SystemState) (ms : List OutMsg) (line : Str) :
    (stateChangedStep s ms line).1.status ∈ statusEnum := by
  simp only [stateChangedStep]
  by_cases h1 : colonArg1 line = "HOMED".data
  · rw [if_pos h1]
    exact mem_statusEnum_HOMED
  · rw [if_neg h1]
    by_cases h2 : colonArg1 line ∈ recognizedStateNames
    · rw [if_pos h2]
      exact List.mem_cons_of_mem _ (List.mem_cons_of_mem _ h2)
    · rw [if_neg h2]
      exact mem_statusEnum_UNKNOWN

theorem keyedStep_status (s : SystemState) (et : Str) (ps : ParsedStatus) :
    (keyedStep s et ps).1.status = s.status ∨ (keyedStep s et ps).1.status ∈ statusEnum := by
  unfold keyedStep
  repeat' split
  all_goals first
    | exact Or.inl rfl
    | exact Or.inr mem_statusEnum_EXECUTING
    | exact Or.inr mem_statusEnum_IDLE
    | exact Or.inr mem_statusEnum_HOMED
    | exact Or.inr mem_statusEnum_ERROR

theorem status_step (s : SystemState) (line : Str) :
    (processSerialResponse s line).1.status = s.status ∨
    (processSerialResponse s line).1.status ∈ statusEnum := by
  unfold processSerialResponse
  split
  · exact Or.inl rfl
  · split
    · exact Or.inr (stateChangedStep_status_mem _ _ _)
    · split
      · rcases keyedStep_status (pressureStep { s with lastSerialMessage := line } line).1
          _ _ with h | h
        · exact Or.inl (h.trans (pressureStep_status _ _))
        · exact Or.inr h
      · exact Or.inl ((tailSteps_status _ _ _).trans (pressureStep_status _ _))

theorem keyedStep_spray_complete (s1 : SystemState) (ps : ParsedStatus) (N : ℚ)
    (hrow : ps.row = some (JNum.num N)) :
    (keyedStep s1 "SPRAY_COMPLETE".data ps).1.patternProgress.completed_rows =
      s1.patternProgress.completed_rows ∨
    (keyedStep s1 "SPRAY_COMPLETE".data ps).1.patternProgress.completed_rows =
      s1.patternProgress.completed_rows ++ [JNum.num (N - 1)] := by
  obtain ⟨pc, ptc, prow, ppat, pss, pdet, pdur, pax⟩ := ps
  simp only at hrow
  subst hrow
  by_cases hmem : JNum.num (N - 1) ∈ s1.patternProgress.completed_rows
  · left
    show (if JNum.num (N - 1) ∈ s1.patternProgress.completed_rows then
            s1.patternProgress.completed_rows
          else s1.patternProgress.completed_rows ++ [JNum.num (N - 1)]) =
        s1.patternProgress.completed_rows
    rw [if_pos hmem]
  · right
    show (if JNum.num (N - 1) ∈ s1.patternProgress.completed_rows then
            s1.patternProgress.completed_rows
          else s1.patternProgress.completed_rows ++ [JNum.num (N - 1)]) =
        s1.patternProgress.completed_rows ++ [JNum.num (N - 1)]
    rw [if_neg hmem]

/-- Claim C2: every recognized keyed-event line among PATTERN_START,
SPRAY_COMPLETE, SPRAY_START, MOVE_X and MOVE_Y that carries `row=N`
stores `N - 1`: into `patternProgress.row`, or (for SPRAY_COMPLETE) as
the entry appended to `completed_rows`. The two side conditions say the
line is dispatched to the keyed-event branch (not captured by the
higher-precedence position or state-change branches). -/
theorem C2_row_offset (s : SystemState) (line : Str) (et : Str) (ps : ParsedStatus) (N : ℚ)
    (hpos : posScan line = none)
    (hsc : startsWithStr "State changed:".data line = false)
    (hparse : parseStatusMessage line = some (et, ps))
    (hrow : ps.row = some (JNum.num N))
    (het : et = "PATTERN_START".data ∨ et = "SPRAY_COMPLETE".data ∨
        et = "SPRAY_START".data ∨ et = "MOVE_X".data ∨ et = "MOVE_Y".data) :
    (et ≠ "SPRAY_COMPLETE".data →
      (processSerialResponse s line).1.patternProgress.row = JNum.num (N - 1)) ∧
    (et = "SPRAY_COMPLETE".data →
      (processSerialResponse s line).1.patternProgress.completed_rows =
        s.patternProgress.completed_rows ∨
      (processSerialResponse s line).1.patternProgress.completed_rows =
        s.patternProgress.completed_rows ++ [JNum.num (N - 1)]) := by
  have hred : (processSerialResponse s line).1 =
      (keyedStep (pressureStep { s with lastSerialMessage := line } line).1 et ps).1 := by
    unfold processSerialResponse
    simp only [hpos, hparse, hsc, Bool.false_eq_true, if_false]
  have hpp : (pressureStep { s with lastSerialMessage := line } line).1.patternProgress =
      s.patternProgress := pressureStep_patternProgress _ _
  constructor
  · intro hne
    rw [hred]
    rcases het with h | h | h | h | h
    · subst h
      show jsub1 (ps.row.getD JNum.undef) = JNum.num (N - 1)
      rw [hrow]
      rfl
    · exact absurd h hne
    · subst h
      show jsub1 (ps.row.getD JNum.undef) = JNum.num (N - 1)
      rw [hrow]
      rfl
    · subst h
      show jsub1 (ps.row.getD JNum.undef) = JNum.num (N - 1)
      rw [hrow]
      rfl
    · subst h
      show jsub1 (ps.row.getD JNum.undef) = JNum.num (N - 1)
      rw [hrow]
      rfl
  · intro heq
    subst heq
    rw [hred]
    have h2 := keyedStep_spray_complete
      (pressureStep { s with lastSerialMessage := line } line).1 ps N hrow
    rw [hpp] at h2
    exact h2

/-- Witness for C2 at the line `SPRAY_START|row=5` from the initial
state: the stored row is `5 - 1`. -/
theorem C2_row_offset_witness :
    posScan "SPRAY_START|row=5".data = none ∧
    startsWithStr "State changed:".data "SPRAY_START|row=5".data = false ∧
    parseStatusMessage "SPRAY_START|row=5".data =
      some ("SPRAY_START".data, { row := some (JNum.num 5) }) ∧
    ({ row := some (JNum.num 5) } : ParsedStatus).row = some (JNum.num 5) ∧
    (processSerialResponse initialState "SPRAY_START|row=5".data).1.patternProgress.row =
      JNum.num (5 - 1) :=
  ⟨by decide, by decide, by decide, by decide,
   (C2_row_offset initialState "SPRAY_START|row=5".data "SPRAY_START".data
      { row := some (JNum.num 5) } 5 (by decide) (by decide) (by decide) (by decide)
      (Or.inr (Or.inr (Or.inl rfl)))).1 (by decide)⟩

theorem keyedStep_completedRows (s : SystemState) (et : Str) (ps : ParsedStatus) :
    (keyedStep s et ps).1.patternProgress.completed_rows =
      s.patternProgress.completed_rows ∨
    (keyedStep s et ps).1.patternProgress.completed_rows = [] ∨
    ∃ a, a ∉ s.patternProgress.completed_rows ∧
      (keyedStep s et ps).1.patternProgress.completed_rows =
        s.patternProgress.completed_rows ++ [a] := by
  unfold keyedStep
  repeat' split
  all_goals try exact Or.inl rfl
  all_goals try exact Or.inr (Or.inl rfl)
  rename_i r heq
  by_cases hmem : jsub1 r ∈ s.patternProgress.completed_rows
  · left
    show (if jsub1 r ∈ s.patternProgress.completed_rows then s.patternProgress.completed_rows
          else s.patternProgress.completed_rows ++ [jsub1 r]) =
        s.patternProgress.completed_rows
    rw [if_pos hmem]
  · right
    right
    refine ⟨jsub1 r, hmem, ?_⟩
    show (if jsub1 r ∈ s.patternProgress.completed_rows then s.patternProgress.completed_rows
          else s.patternProgress.completed_rows ++ [jsub1 r]) =
        s.patternProgress.completed_rows ++ [jsub1 r]
    rw [if_neg hmem]

theorem stateChangedStep_completedRows (s : SystemState) (ms : List OutMsg) (line : Str) :
    (stateChangedStep s ms line).1.patternProgress.completed_rows =
      s.patternProgress.completed_rows ∨
    (stateChangedStep s ms line).1.patternProgress.completed_rows = [] := by
  simp only [stateChangedStep]
  by_cases h1 : colonArg1 line = "HOMED".data
  · rw [if_pos h1]
    exact Or.inr rfl
  · rw [if_neg h1]
    by_cases h2 : colonArg1 line ∈ recognizedStateNames
    · rw [if_pos h2]
      exact Or.inl rfl
    · rw [if_neg h2]
      exact Or.inl rfl

theorem completedRows_step (s : SystemState) (line : Str) :
    (processSerialResponse s line).1.patternProgress.completed_rows =
      s.patternProgress.completed_rows ∨
    (processSerialResponse s line).1.patternProgress.completed_rows = [] ∨
    ∃ a, a ∉ s.patternProgress.completed_rows ∧
      (processSerialResponse s line).1.patternProgress.completed_rows =
        s.patternProgress.completed_rows ++ [a] := by
  have hcr : (pressureStep { s with lastSerialMessage := line } line).1.patternProgress.completed_rows
      = s.patternProgress.completed_rows :=
    congrArg PatternProgress.completed_rows
      (pressureStep_patternProgress { s with lastSerialMessage := line } line)
  unfold processSerialResponse
  split
  · exact Or.inl rfl
  · split
    · rcases stateChangedStep_completedRows
          (pressureStep { s with lastSerialMessage := line } line).1
          (pressureStep { s with lastSerialMessage := line } line).2 line with h | h
      · exact Or.inl (h.trans hcr)
      · exact Or.inr (Or.inl h)
    · split
      · rename_i ep heq
        rcases keyedStep_completedRows
            (pressureStep { s with lastSerialMessage := line } line).1 ep.1 ep.2
          with h | h | ⟨a, ha, h⟩
        · exact Or.inl (h.trans hcr)
        · exact Or.inr (Or.inl h)
        · rw [hcr] at ha h
          exact Or.inr (Or.inr ⟨a, ha, h⟩)
      · exact Or.inl ((congrArg PatternProgress.completed_rows
          (tailSteps_patternProgress
            (pressureStep { s with lastSerialMessage := line } line).1
            (pressureStep { s with lastSerialMessage := line } line).2 line)).trans hcr)

theorem completedRows_nodup_step (s : SystemState) (line : Str)
    (h : s.patternProgress.completed_rows.Nodup) :
    (processSerialResponse s line).1.patternProgress.completed_rows.Nodup := by
  rcases completedRows_step s line with h1 | h1 | ⟨a, ha, h1⟩ <;> rw [h1]
  · exact h
  · exact List.nodup_nil
  · simp [List.nodup_append, h, ha]

/-- Claim C3: starting from any state with duplicate-free
`completed_rows` (the initial state has `[]`), processing any sequence
of inbound lines keeps `completed_rows` duplicate-free: SPRAY_COMPLETE
appends `row - 1` only when it is not already present, so repeated
`SPRAY_COMPLETE|row=N` lines are idempotent on `completed_rows`. -/
theorem C3_completed_rows_nodup (s : SystemState) (lines : List Str)
    (h : s.patternProgress.completed_rows.Nodup) :
    (processLines s lines).patternProgress.completed_rows.Nodup := by
  induction lines generalizing s with
  | nil => exact h
  | cons l ls ih => exact ih _ (completedRows_nodup_step s l h)

/-- Witness for C3: two identical `SPRAY_COMPLETE|row=3` lines from the
initial state leave `completed_rows` duplicate-free. -/
theorem C3_completed_rows_nodup_witness :
    initialState.patternProgress.completed_rows.Nodup ∧
    (processLines initialState
        ["SPRAY_COMPLETE|row=3".data, "SPRAY_COMPLETE|row=3".data]
      ).patternProgress.completed_rows.Nodup :=
  ⟨by decide,
   C3_completed_rows_nodup initialState
     ["SPRAY_COMPLETE|row=3".data, "SPRAY_COMPLETE|row=3".data] (by decide)⟩

/-- Counterexample to claim C4 as stated: the line
`State changed: Position - X: 1 inches, Y: 2 inches` is of the form
`State changed:<name>` with an unrecognized trimmed name, yet the
resulting status is the unchanged `IDLE`, not `UNKNOWN` — the position
regex is checked before the `State changed:` branch and matches inside
the name. -/
theorem C4_counterexample :
    startsWithStr "State changed:".data advC4Line = true ∧
    colonArg1 advC4Line ∉ "HOMED".data :: recognizedStateNames ∧
    (processSerialResponse initialState advC4Line).1.status = "IDLE".data ∧
    "IDLE".data ≠ "UNKNOWN".data := by
  decide

/-- Claim C4 (amended): the status invariant holds — processing any line
keeps `status` inside the 15-member enum (including `PRIMING`, which the
cast in the `switch` stores although the typed enum omits it); and every
line starting with `State changed:` whose trimmed name is unrecognized
yields `UNKNOWN`, provided the line is not captured first by the
higher-precedence position-report pattern. -/
theorem C4_status_enum :
    (∀ (s : SystemState) (line : Str), s.status ∈ statusEnum →
      (processSerialResponse s line).1.status ∈ statusEnum) ∧
    (∀ (s : SystemState) (line : Str),
      startsWithStr "State changed:".data line = true →
      posScan line = none →
      colonArg1 line ∉ "HOMED".data :: recognizedStateNames →
      (processSerialResponse s line).1.status = "UNKNOWN".data) := by
  constructor
  · intro s line hs
    rcases status_step s line with h | h
    · rw [h]
      exact hs
    · exact h
  · intro s line hsc hpos hname
    have h1 : ¬ colonArg1 line = "HOMED".data := fun hh =>
      hname (by rw [hh]; exact List.mem_cons_self _ _)
    have h2 : colonArg1 line ∉ recognizedStateNames := fun hh =>
      hname (List.mem_cons_of_mem _ hh)
    unfold processSerialResponse
    rw [hpos]
    simp only [hsc, if_true]
    simp only [stateChangedStep]
    rw [if_neg h1, if_neg h2]

/-- Witness for C4 (amended): the invariant step at `xyz garbage` and
the `UNKNOWN` mapping at `State changed:WHAT`. -/
theorem C4_status_enum_witness :
    (initialState.status ∈ statusEnum ∧
      (processSerialResponse initialState "xyz garbage".data).1.status ∈ statusEnum) ∧
    (startsWithStr "State changed:".data "State changed:WHAT".data = true ∧
      posScan "State changed:WHAT".data = none ∧
      colonArg1 "State changed:WHAT".data ∉ "HOMED".data :: recognizedStateNames ∧
      (processSerialResponse initialState "State changed:WHAT".data).1.status =
        "UNKNOWN".data) :=
  ⟨⟨by decide, C4_status_enum.1 initialState "xyz garbage".data (by decide)⟩,
   by decide, by decide, by decide,
   C4_status_enum.2 initialState "State changed:WHAT".data (by decide) (by decide) (by decide)⟩

/-- Counterexample to claim C1 as stated: the unrecognized line
`xyz garbage` broadcasts nothing, but it does mutate the state — the raw
line is stored into the `lastSerialMessage` field before any matching. -/
theorem C1_counterexample :
    recognizedLine "xyz garbage".data = false ∧
    (processSerialResponse initialState "xyz garbage".data).2 = [] ∧
    (processSerialResponse initialState "xyz garbage".data).1 ≠ initialState := by
  decide

/-- Claim C1 (amended): an inbound line matching none of the recognized
forms sends no message of any type to any subscriber and leaves every
field of the system state unchanged except `lastSerialMessage`, which
always records the raw line. -/
theorem C1_unrecognized_noop (s : SystemState) (line : Str)
    (h : recognizedLine line = false) :
    processSerialResponse s line = ({ s with lastSerialMessage := line }, []) := by
  have h2 := h
  simp only [recognizedLine, Bool.or_eq_false_iff] at h2
  obtain ⟨⟨⟨⟨⟨⟨⟨⟨⟨hpos, hpp⟩, hsc⟩, hparse⟩, hp1⟩, htemp⟩, hwarn⟩, hlc⟩, hlim⟩, hservo⟩ := h2
  have hposn := isSome_false_eq_none hpos
  have hparsen := isSome_false_eq_none hparse
  have hlimn := isSome_false_eq_none hlim
  have hservon := isSome_false_eq_none hservo
  unfold processSerialResponse pressureStep tailSteps
  rw [hposn]
  simp only [hpp, hsc, hp1, htemp, hwarn, hlc, hparsen, hlimn, hservon, Bool.false_eq_true,
    if_false]

/-- Witness for C1 (amended) at the concrete line `xyz garbage`. -/
theorem C1_unrecognized_noop_witness :
    recognizedLine "xyz garbage".data = false ∧
    processSerialResponse initialState "xyz garbage".data =
      ({ initialState with lastSerialMessage := "xyz garbage".data }, []) :=
  ⟨by decide, C1_unrecognized_noop initialState "xyz garbage".data (by decide)⟩

/-- Counterexample to claim C5 as stated: processing `LIMIT:X_MIN` does
set `limitSwitches.x.min`, but it also changes a field outside
`limitSwitches`: `lastSerialMessage` stores every raw line first. -/
theorem C5_counterexample :
    (processSerialResponse initialState "LIMIT:X_MIN".data).1.limitSwitches.x.min = true ∧
    (processSerialResponse initialState "LIMIT:X_MIN".data).1.lastSerialMessage ≠
      initialState.lastSerialMessage := by
  decide

/-- Claim C5 (amended): `LIMIT:X_MIN` sets only `limitSwitches.x.min`
(leaving `x.max` and the whole `y` pair untouched) and `LIMIT_CLEAR:X`
resets both `x` flags, leaving `y` untouched; symmetrically for the Y
axis; and apart from `limitSwitches`, the only other field either line
changes is `lastSerialMessage`, which records the raw line. -/
theorem C5_limit_switch_frame (s : SystemState) :
    (processSerialResponse s "LIMIT:X_MIN".data).1 =
      { s with lastSerialMessage := "LIMIT:X_MIN".data
               limitSwitches := { x := { min := true, max := s.limitSwitches.x.max }
                                  y := s.limitSwitches.y } } ∧
    (processSerialResponse s "LIMIT:X_MAX".data).1 =
      { s with lastSerialMessage := "LIMIT:X_MAX".data
               limitSwitches := { x := { min := s.limitSwitches.x.min, max := true }
                                  y := s.limitSwitches.y } } ∧
    (processSerialResponse s "LIMIT_CLEAR:X".data).1 =
      { s with lastSerialMessage := "LIMIT_CLEAR:X".data
               limitSwitches := { x := { min := false, max := false }
                                  y := s.limitSwitches.y } } ∧
    (processSerialResponse s "LIMIT:Y_MIN".data).1 =
      { s with lastSerialMessage := "LIMIT:Y_MIN".data
               limitSwitches := { x := s.limitSwitches.x
                                  y := { min := true, max := s.limitSwitches.y.max } } } ∧
    (processSerialResponse s "LIMIT:Y_MAX".data).1 =
      { s with lastSerialMessage := "LIMIT:Y_MAX".data
               limitSwitches := { x := s.limitSwitches.x
                                  y := { min := s.limitSwitches.y.min, max := true } } } ∧
    (processSerialResponse s "LIMIT_CLEAR:Y".data).1 =
      { s with lastSerialMessage := "LIMIT_CLEAR:Y".data
               limitSwitches := { x := s.limitSwitches.x
                                  y := { min := false, max := false } } } :=
  ⟨rfl, rfl, rfl, rfl, rfl, rfl⟩

/-- Claim C10: a `ROTATE_SPINNER` payload whose `degrees` field is the
number 0 is rejected with the missing-field error (0 is falsy, so the
presence check `!payload?.degrees` fires) and nothing is written to the
link, for every direction value. -/
theorem C10_rotate_spinner_zero (d : JVal) :
    handleRotateSpinner (some { direction := d, degrees := JVal.vnum 0 }) =
      CmdOutcome.clientError "Missing direction or degrees for rotation".data := by
  have h0 : jsTruthy (JVal.vnum 0) = false := by decide
  simp [handleRotateSpinner, h0]

end RoboTyler
